import Mathlib

/-! Verification development for the hybrid TLS 1.3 handshake core
(`hybrid_tls.py`): enumerations, classical and post-quantum KEM wrappers,
negotiation, key-share generation, shared-secret combination through
HKDF-SHA384, session-key derivation and the complete handshake driver.
Randomness (`secrets.token_bytes`) is modelled as draws from explicit
entropy streams `Nat → Nat`; the external `cryptography` / `oqs` native
primitives (curve exchanges, real KEMs) are modelled as explicit backend
records, while the HKDF used by the combiner is implemented concretely
(SHA-384 / HMAC / HKDF per FIPS 180-4 and RFC 5869, matching the library
call `HKDF(algorithm=SHA384, length=..., salt=..., info=...)`). -/

/-- Byte strings are lists of naturals (each intended `< 256`). -/
abbrev Bytes := List Nat

/-- Model of `secrets.token_bytes(n)`: draw `n` bytes from an external
entropy stream `rng` starting at offset `off`. -/
def tokenBytes (rng : Nat → Nat) (off n : Nat) : Bytes :=
  (List.range n).map fun i => rng (off + i) % 256

/-- UTF-8 bytes of a string literal (all literals in the source are ASCII). -/
def strBytes (s : String) : Bytes :=
  s.data.map Char.toNat

/-- Reduction modulo 2^64, the word size of SHA-512/384. -/
def w64 (n : Nat) : Nat := n % 18446744073709551616

/-- 64-bit modular addition. -/
def add64 (a b : Nat) : Nat := (a + b) % 18446744073709551616

/-- 64-bit right rotation. -/
def rotr64 (x k : Nat) : Nat := w64 ((x >>> k) ||| (x <<< (64 - k)))

/-- SHA-512 Sigma0. -/
def bigS0 (x : Nat) : Nat := (rotr64 x 28) ^^^ (rotr64 x 34) ^^^ (rotr64 x 39)

/-- SHA-512 Sigma1. -/
def bigS1 (x : Nat) : Nat := (rotr64 x 14) ^^^ (rotr64 x 18) ^^^ (rotr64 x 41)

/-- SHA-512 sigma0. -/
def smallS0 (x : Nat) : Nat := (rotr64 x 1) ^^^ (rotr64 x 8) ^^^ (x >>> 7)

/-- SHA-512 sigma1. -/
def smallS1 (x : Nat) : Nat := (rotr64 x 19) ^^^ (rotr64 x 61) ^^^ (x >>> 6)

/-- SHA-512 Ch function (the complement is a xor with 2^64 - 1). -/
def chF (x y z : Nat) : Nat := (x &&& y) ^^^ ((x ^^^ 18446744073709551615) &&& z)

/-- SHA-512 Maj function. -/
def majF (x y z : Nat) : Nat := (x &&& y) ^^^ (x &&& z) ^^^ (y &&& z)

/-- The 80 SHA-512 round constants (FIPS 180-4 section 4.2.3, rendered in
decimal). -/
def sha512K : List Nat :=
  [4794697086780616226, 8158064640168781261, 13096744586834688815,
   16840607885511220156, 4131703408338449720, 6480981068601479193,
   10538285296894168987, 12329834152419229976, 15566598209576043074,
   1334009975649890238, 2608012711638119052, 6128411473006802146,
   8268148722764581231, 9286055187155687089, 11230858885718282805,
   13951009754708518548, 16472876342353939154, 17275323862435702243,
   1135362057144423861, 2597628984639134821, 3308224258029322869,
   5365058923640841347, 6679025012923562964, 8573033837759648693,
   10970295158949994411, 12119686244451234320, 12683024718118986047,
   13788192230050041572, 14330467153632333762, 15395433587784984357,
   489312712824947311, 1452737877330783856, 2861767655752347644,
   3322285676063803686, 5560940570517711597, 5996557281743188959,
   7280758554555802590, 8532644243296465576, 9350256976987008742,
   10552545826968843579, 11727347734174303076, 12113106623233404929,
   14000437183269869457, 14369950271660146224, 15101387698204529176,
   15463397548674623760, 17586052441742319658, 1182934255886127544,
   1847814050463011016, 2177327727835720531, 2830643537854262169,
   3796741975233480872, 4115178125766777443, 5681478168544905931,
   6601373596472566643, 7507060721942968483, 8399075790359081724,
   8693463985226723168, 9568029438360202098, 10144078919501101548,
   10430055236837252648, 11840083180663258601, 13761210420658862357,
   14299343276471374635, 14566680578165727644, 15097957966210449927,
   16922976911328602910, 17689382322260857208, 500013540394364858,
   748580250866718886, 1242879168328830382, 1977374033974150939,
   2944078676154940804, 3659926193048069267, 4368137639120453308,
   4836135668995329356, 5532061633213252278, 6448918945643986474,
   6902733635092675308, 7801388544844847127]

/-- Working state of SHA-512/384: eight 64-bit words. -/
structure Sha512State where
  a : Nat
  b : Nat
  c : Nat
  d : Nat
  e : Nat
  f : Nat
  g : Nat
  h : Nat

/-- SHA-384 initial hash value (FIPS 180-4 section 5.3.4, in decimal). -/
def sha384Init : Sha512State :=
  ⟨14680500436340154072, 7105036623409894663, 10473403895298186519,
   1526699215303891257, 7436329637833083697, 10282925794625328401,
   15784041429090275239, 5167115440072839076⟩

/-- One SHA-512 compression round. -/
def sha512Round (st : Sha512State) (kt wt : Nat) : Sha512State :=
  let t1 := add64 (add64 (add64 st.h (bigS1 st.e)) (add64 (chF st.e st.f st.g) kt)) wt
  let t2 := add64 (bigS0 st.a) (majF st.a st.b st.c)
  ⟨add64 t1 t2, st.a, st.b, st.c, add64 st.d t1, st.e, st.f, st.g⟩

/-- One step of the message-schedule extension, on the reversed schedule
(head is the most recent word): W[t] = s1(W[t-2]) + W[t-7] + s0(W[t-15]) + W[t-16]. -/
def scheduleStep (w : List Nat) : Nat :=
  add64 (add64 (smallS1 (w.getD 1 0)) (w.getD 6 0)) (add64 (smallS0 (w.getD 14 0)) (w.getD 15 0))

/-- Extend the reversed schedule by `k` words. -/
def scheduleRev (w : List Nat) : Nat → List Nat
  | 0 => w
  | k + 1 => scheduleRev (scheduleStep w :: w) k

/-- The 80-word SHA-512 message schedule of one 16-word block. -/
def sha512Schedule (block : List Nat) : List Nat :=
  (scheduleRev block.reverse 64).reverse

/-- Compress one 16-word block into the state. -/
def sha512Compress (st : Sha512State) (block : List Nat) : Sha512State :=
  let w := sha512Schedule block
  let ft := (sha512K.zip w).foldl (fun s kw => sha512Round s kw.1 kw.2) st
  ⟨add64 st.a ft.a, add64 st.b ft.b, add64 st.c ft.c, add64 st.d ft.d,
   add64 st.e ft.e, add64 st.f ft.f, add64 st.g ft.g, add64 st.h ft.h⟩

/-- Big-endian bytes of a number, `k` bytes wide. -/
def natToBytesBE : Nat → Nat → Bytes
  | 0, _ => []
  | k + 1, n => natToBytesBE k (n / 256) ++ [n % 256]

/-- Group bytes into big-endian 64-bit words (8 bytes each). -/
def bytesToWordsBE : Bytes → List Nat
  | b0 :: b1 :: b2 :: b3 :: b4 :: b5 :: b6 :: b7 :: rest =>
      (((((((b0 * 256 + b1) * 256 + b2) * 256 + b3) * 256 + b4) * 256 + b5) * 256 + b6) * 256 + b7)
        :: bytesToWordsBE rest
  | _ => []

/-- SHA-512 padding: append 0x80, zeros, and the 16-byte big-endian bit length,
up to a multiple of 128 bytes. -/
def sha512Pad (msg : Bytes) : Bytes :=
  let L := msg.length
  let padZeros := (128 - ((L + 17) % 128)) % 128
  msg ++ [128] ++ List.replicate padZeros 0 ++ natToBytesBE 16 (L * 8)

/-- Split into 128-byte chunks; `fuel` is the number of chunks. -/
def chunks128 (l : Bytes) : Nat → List Bytes
  | 0 => []
  | k + 1 => l.take 128 :: chunks128 (l.drop 128) k

/-- Big-endian bytes of one 64-bit word. -/
def wordBytes (w : Nat) : Bytes := natToBytesBE 8 w

/-- SHA-384 of a byte string: compress all padded blocks and emit the first
six state words (48 bytes). -/
def sha384 (msg : Bytes) : Bytes :=
  let padded := sha512Pad msg
  let blocks := chunks128 padded (padded.length / 128)
  let fin := blocks.foldl (fun st b => sha512Compress st (bytesToWordsBE b)) sha384Init
  wordBytes fin.a ++ wordBytes fin.b ++ wordBytes fin.c ++
    wordBytes fin.d ++ wordBytes fin.e ++ wordBytes fin.f

/-- HMAC-SHA384 (RFC 2104) with the 128-byte block size of SHA-384. -/
def hmacSha384 (key msg : Bytes) : Bytes :=
  let k0 := if 128 < key.length then sha384 key else key
  let kp := k0 ++ List.replicate (128 - k0.length) 0
  sha384 ((kp.map fun b => b ^^^ 92) ++ sha384 ((kp.map fun b => b ^^^ 54) ++ msg))

/-- The HKDF-Expand block chain (RFC 5869): `k` blocks, counter starting at `i`,
`prev` the previous block output. -/
def hkdfExpandLoop (prk info : Bytes) : Nat → Nat → Bytes → Bytes
  | 0, _, _ => []
  | k + 1, i, prev =>
      let t := hmacSha384 prk (prev ++ info ++ [i % 256])
      t ++ hkdfExpandLoop prk info k (i + 1) t

/-- HKDF with SHA-384 (RFC 5869 extract-then-expand), as performed by
`HKDF(algorithm=SHA384, length=len, salt=salt, info=info).derive(ikm)`. -/
def hkdf (len : Nat) (salt info ikm : Bytes) : Bytes :=
  let prk := hmacSha384 salt ikm
  (hkdfExpandLoop prk info ((len + 47) / 48) 1 []).take len

theorem natToBytesBE_length (k n : Nat) : (natToBytesBE k n).length = k := by
  induction k generalizing n with
  | zero => rfl
  | succ m ih => simp [natToBytesBE, ih]

theorem sha384_length (msg : Bytes) : (sha384 msg).length = 48 := by
  simp [sha384, wordBytes, natToBytesBE_length]

theorem hmacSha384_length (key msg : Bytes) : (hmacSha384 key msg).length = 48 := by
  unfold hmacSha384
  exact sha384_length _

theorem hkdfExpandLoop_length (prk info : Bytes) (k : Nat) :
    ∀ i prev, (hkdfExpandLoop prk info k i prev).length = 48 * k := by
  induction k with
  | zero => intro i prev; rfl
  | succ m ih =>
      intro i prev
      simp [hkdfExpandLoop, hmacSha384_length, ih]
      omega

/-- The library guarantee used throughout: HKDF with requested length `len`
returns exactly `len` bytes. -/
theorem hkdf_length (len : Nat) (salt info ikm : Bytes) :
    (hkdf len salt info ikm).length = len := by
  unfold hkdf
  rw [List.length_take, hkdfExpandLoop_length]
  omega

/-- `KeyExchangeType` enumeration of `hybrid_tls.py`. -/
inductive KeyExchangeType where
  | CLASSICAL
  | PQ_ONLY
  | DUAL_HYBRID
  | TRIPLE_HYBRID
deriving DecidableEq, Repr

/-- The `.value` string of each `KeyExchangeType` member. -/
def KeyExchangeType.value : KeyExchangeType → String
  | .CLASSICAL => "classical"
  | .PQ_ONLY => "pq_only"
  | .DUAL_HYBRID => "dual_hybrid"
  | .TRIPLE_HYBRID => "triple_hybrid"

/-- `CryptoAlgorithm` enumeration of `hybrid_tls.py`. -/
inductive CryptoAlgorithm where
  | X25519
  | X448
  | ECDH_P256
  | ECDH_P384
  | RSA_2048
  | KYBER512
  | KYBER768
  | KYBER1024
  | NTRU_HPS2048509
  | NTRU_HPS2048677
  | LIGHTSABER
  | SABER
  | FIRESABER
deriving DecidableEq, Repr

/-- The `.value` string of each `CryptoAlgorithm` member. -/
def CryptoAlgorithm.value : CryptoAlgorithm → String
  | .X25519 => "X25519"
  | .X448 => "X448"
  | .ECDH_P256 => "ECDH-P256"
  | .ECDH_P384 => "ECDH-P384"
  | .RSA_2048 => "RSA-2048"
  | .KYBER512 => "Kyber512"
  | .KYBER768 => "Kyber768"
  | .KYBER1024 => "Kyber1024"
  | .NTRU_HPS2048509 => "NTRU-HPS-2048-509"
  | .NTRU_HPS2048677 => "NTRU-HPS-2048-677"
  | .LIGHTSABER => "LightSaber-KEM"
  | .SABER => "Saber-KEM"
  | .FIRESABER => "FireSaber-KEM"

/-- `KeyMaterial` dataclass: container for cryptographic key material. -/
structure KeyMaterial where
  public_key : Bytes
  private_key : Bytes
  algorithm : CryptoAlgorithm
  key_size : Nat

/-- Transcript entry (the `HandshakeMessage` dataclass; the payload dict and
wall-clock timestamp are logged but never read back, so only the routed type
and sender are modelled). -/
structure HandshakeMessage where
  message_type : String
  sender : String
deriving DecidableEq, Repr

/-- Which algorithms appear in the `oqs_names` map of `QuantumSafeKEM.__init__`. -/
def oqsMapped : CryptoAlgorithm → Bool
  | .KYBER512 | .KYBER768 | .KYBER1024 | .NTRU_HPS2048509 | .NTRU_HPS2048677
  | .LIGHTSABER | .SABER | .FIRESABER => true
  | _ => false

/-- The `_use_simulation` flag set by `QuantumSafeKEM.__init__`: simulation is
used when OQS is unavailable, when the algorithm is not in `oqs_names`, or when
instantiating the native KEM raised. -/
def useSimulationFlag (oqsAvailable : Bool) (instantiationOk : Bool) (a : CryptoAlgorithm) : Bool :=
  if oqsAvailable then
    if oqsMapped a then !instantiationOk else true
  else true

/-- The simulation-mode `(public, private)` key sizes table of
`QuantumSafeKEM.generate_keypair`, with its `(1024, 2048)` default. -/
def pq_key_sizes : CryptoAlgorithm → Nat × Nat
  | .KYBER512 => (800, 1632)
  | .KYBER768 => (1184, 2400)
  | .KYBER1024 => (1568, 3168)
  | .NTRU_HPS2048509 => (699, 935)
  | .NTRU_HPS2048677 => (930, 1234)
  | .LIGHTSABER => (672, 1568)
  | .SABER => (992, 2304)
  | .FIRESABER => (1312, 3040)
  | _ => (1024, 2048)

/-- The native OQS library behind the non-simulated branch of
`QuantumSafeKEM` (an external collaborator, modelled abstractly). -/
structure OQSBackend where
  generate : CryptoAlgorithm → (Nat → Nat) → Bytes × Bytes
  encap : CryptoAlgorithm → Bytes → Except String (Bytes × Bytes)
  decap : CryptoAlgorithm → Bytes → Bytes

/-- `QuantumSafeKEM` wrapper: algorithm plus the `_use_simulation` flag fixed
at construction. -/
structure QuantumSafeKEM where
  algorithm : CryptoAlgorithm
  use_simulation : Bool

/-- `QuantumSafeKEM.generate_keypair`: real OQS keypair when available,
otherwise random bytes of the algorithm-specific simulated sizes. -/
def QuantumSafeKEM.generate_keypair (kem : QuantumSafeKEM) (ob : OQSBackend)
    (rng : Nat → Nat) : KeyMaterial :=
  if kem.use_simulation then
    let sizes := pq_key_sizes kem.algorithm
    ⟨tokenBytes rng 0 sizes.1, tokenBytes rng sizes.1 sizes.2, kem.algorithm, sizes.1⟩
  else
    let pair := ob.generate kem.algorithm rng
    ⟨pair.1, pair.2, kem.algorithm, pair.1.length⟩

/-- `QuantumSafeKEM.encapsulate`: in simulation mode the ciphertext is random
bytes of the public-key length and the shared secret is 32 fresh random bytes. -/
def QuantumSafeKEM.encapsulate (kem : QuantumSafeKEM) (ob : OQSBackend)
    (rng : Nat → Nat) (public_key : Bytes) : Except String (Bytes × Bytes) :=
  if kem.use_simulation then
    .ok (tokenBytes rng 0 public_key.length, tokenBytes rng public_key.length 32)
  else
    ob.encap kem.algorithm public_key

/-- `QuantumSafeKEM.decapsulate`: the real branch passes only the ciphertext to
the library; the simulation branch returns 32 fresh random bytes, ignoring both
the ciphertext and the private key. -/
def QuantumSafeKEM.decapsulate (kem : QuantumSafeKEM) (ob : OQSBackend)
    (rng : Nat → Nat) (ciphertext private_key : Bytes) : Bytes :=
  if kem.use_simulation then
    tokenBytes rng 0 32
  else
    ob.decap kem.algorithm ciphertext

/-- The `cryptography` library primitives behind `ClassicalKEM` (external
collaborator): raw keypair generation from entropy and the Diffie-Hellman
style `exchange`, which may raise on malformed key bytes. -/
structure ClassicalBackend where
  generate : CryptoAlgorithm → (Nat → Nat) → Bytes × Bytes
  exchange : CryptoAlgorithm → Bytes → Bytes → Except String Bytes

/-- `ClassicalKEM.generate_keypair`: per-curve key sizes as recorded by the
source (32 / 56 / 65 / 97); any other algorithm raises `ValueError`. -/
def ClassicalKEM.generate_keypair (alg : CryptoAlgorithm) (cb : ClassicalBackend)
    (rng : Nat → Nat) : Except String KeyMaterial :=
  match alg with
  | .X25519 =>
      let pair := cb.generate .X25519 rng
      .ok ⟨pair.1, pair.2, .X25519, 32⟩
  | .X448 =>
      let pair := cb.generate .X448 rng
      .ok ⟨pair.1, pair.2, .X448, 56⟩
  | .ECDH_P256 =>
      let pair := cb.generate .ECDH_P256 rng
      .ok ⟨pair.1, pair.2, .ECDH_P256, 65⟩
  | .ECDH_P384 =>
      let pair := cb.generate .ECDH_P384 rng
      .ok ⟨pair.1, pair.2, .ECDH_P384, 97⟩
  | _ => .error "Unsupported classical algorithm"

/-- `ClassicalKEM.derive_shared_secret`: X25519/X448 call the library exchange;
every other algorithm falls through to the simplified
`return secrets.token_bytes(32)`. -/
def ClassicalKEM.derive_shared_secret (alg : CryptoAlgorithm) (cb : ClassicalBackend)
    (rng : Nat → Nat) (private_key public_key : Bytes) : Except String Bytes :=
  match alg with
  | .X25519 => cb.exchange .X25519 private_key public_key
  | .X448 => cb.exchange .X448 private_key public_key
  | _ => .ok (tokenBytes rng 0 32)

/-- Constructor configuration of `HybridTLSHandshake`. -/
structure HybridTLSHandshake where
  exchange_type : KeyExchangeType
  classical_alg : CryptoAlgorithm
  pq_alg1 : CryptoAlgorithm
  pq_alg2 : Option CryptoAlgorithm

/-- `self.pq_kem2` as set by `__init__`: instantiated only when `pq_alg2` is
given and the exchange type is triple hybrid. -/
def pqKem2 (cfg : HybridTLSHandshake) (useSim : CryptoAlgorithm → Bool) :
    Option QuantumSafeKEM :=
  match cfg.pq_alg2 with
  | some a2 =>
      if cfg.exchange_type = .TRIPLE_HYBRID then some ⟨a2, useSim a2⟩ else none
  | none => none

/-- ClientHello payload fields that flow onward (nonce and supported groups). -/
structure ClientHello where
  random : Bytes
  supported_groups : List String

/-- ServerHello payload fields that flow onward. -/
structure ServerHello where
  random : Bytes
  selected_group : String

/-- `client_hello`: advertise the supported groups determined by the local
exchange type, log the message, return the hello. -/
def client_hello (cfg : HybridTLSHandshake) (rng : Nat → Nat)
    (msgs : List HandshakeMessage) : ClientHello × List HandshakeMessage :=
  let groups :=
    (if cfg.exchange_type = .CLASSICAL ∨ cfg.exchange_type = .DUAL_HYBRID ∨
        cfg.exchange_type = .TRIPLE_HYBRID then [cfg.classical_alg.value] else [])
    ++ (if cfg.exchange_type = .PQ_ONLY ∨ cfg.exchange_type = .DUAL_HYBRID ∨
        cfg.exchange_type = .TRIPLE_HYBRID then [cfg.pq_alg1.value] else [])
    ++ (match cfg.pq_alg2 with
        | some a2 => if cfg.exchange_type = .TRIPLE_HYBRID then [a2.value] else []
        | none => [])
  (⟨tokenBytes rng 0 32, groups⟩, msgs ++ [⟨"ClientHello", "Client"⟩])

/-- The group-selection logic of `server_hello`: a strict if/elif chain keyed
on the local exchange type; the hybrid branches require every configured
algorithm to appear in the client's advertised groups. -/
def selectGroup (cfg : HybridTLSHandshake) (client_groups : List String) : Option String :=
  if cfg.exchange_type = .TRIPLE_HYBRID ∧ cfg.pq_alg2.isSome = true then
    match cfg.pq_alg2 with
    | some a2 =>
        if cfg.classical_alg.value ∈ client_groups ∧ cfg.pq_alg1.value ∈ client_groups ∧
            a2.value ∈ client_groups then
          some ("triple_hybrid_" ++ cfg.classical_alg.value ++ "_" ++ cfg.pq_alg1.value ++
            "_" ++ a2.value)
        else none
    | none => none
  else if cfg.exchange_type = .DUAL_HYBRID then
    if cfg.classical_alg.value ∈ client_groups ∧ cfg.pq_alg1.value ∈ client_groups then
      some ("hybrid_" ++ cfg.classical_alg.value ++ "_" ++ cfg.pq_alg1.value)
    else none
  else if cfg.exchange_type = .CLASSICAL then
    if cfg.classical_alg.value ∈ client_groups then some cfg.classical_alg.value else none
  else if cfg.exchange_type = .PQ_ONLY then
    if cfg.pq_alg1.value ∈ client_groups then some cfg.pq_alg1.value else none
  else none

/-- `server_hello`: raise `ValueError("No compatible key exchange group found")`
when selection fails, otherwise log and answer with the selected group. -/
def server_hello (cfg : HybridTLSHandshake) (ch : ClientHello) (rng : Nat → Nat)
    (msgs : List HandshakeMessage) :
    Except String (ServerHello × List HandshakeMessage) :=
  match selectGroup cfg ch.supported_groups with
  | none => .error "No compatible key exchange group found"
  | some g => .ok (⟨tokenBytes rng 0 32, g⟩, msgs ++ [⟨"ServerHello", "Server"⟩])

/-- One entry of the key-share dict: algorithm name, public key, size, and the
private key only when present. -/
structure KeyShareEntry where
  algorithm : String
  public_key : Bytes
  key_size : Nat
  private_key : Option Bytes

/-- The key-share dict keyed by `classical` / `pq_primary` / `pq_secondary`. -/
structure KeyShares where
  classical : Option KeyShareEntry
  pq_primary : Option KeyShareEntry
  pq_secondary : Option KeyShareEntry

/-- Build one key-share entry from generated key material; the private key is
stored in the entry only for the server (`if is_server:` in the source). -/
def mkShareEntry (km : KeyMaterial) (isServer : Bool) : KeyShareEntry :=
  ⟨km.algorithm.value, km.public_key, km.key_size,
   if isServer then some km.private_key else none⟩

/-- The `pq_primary` slot of `generate_key_shares`. -/
def pq1Entry (cfg : HybridTLSHandshake) (isServer : Bool) (ob : OQSBackend)
    (useSim : CryptoAlgorithm → Bool) (rng : Nat → Nat) : Option KeyShareEntry :=
  if cfg.exchange_type = .PQ_ONLY ∨ cfg.exchange_type = .DUAL_HYBRID ∨
      cfg.exchange_type = .TRIPLE_HYBRID then
    some (mkShareEntry
      ((QuantumSafeKEM.mk cfg.pq_alg1 (useSim cfg.pq_alg1)).generate_keypair ob rng) isServer)
  else none

/-- The `pq_secondary` slot of `generate_key_shares` (requires triple hybrid
and an instantiated second KEM). -/
def pq2Entry (cfg : HybridTLSHandshake) (isServer : Bool) (ob : OQSBackend)
    (useSim : CryptoAlgorithm → Bool) (rng : Nat → Nat) : Option KeyShareEntry :=
  if cfg.exchange_type = .TRIPLE_HYBRID then
    match pqKem2 cfg useSim with
    | some kem2 => some (mkShareEntry (kem2.generate_keypair ob rng) isServer)
    | none => none
  else none

/-- `generate_key_shares`: one keypair per selected primitive, the private key
kept in the share only for the server, and exactly one `KeyShare` transcript
entry logged. A classical `generate_keypair` error propagates uncaught. -/
def generate_key_shares (cfg : HybridTLSHandshake) (isServer : Bool)
    (cb : ClassicalBackend) (ob : OQSBackend) (useSim : CryptoAlgorithm → Bool)
    (rngC rngP1 rngP2 : Nat → Nat) (msgs : List HandshakeMessage) :
    Except String (KeyShares × List HandshakeMessage) :=
  if cfg.exchange_type = .CLASSICAL ∨ cfg.exchange_type = .DUAL_HYBRID ∨
      cfg.exchange_type = .TRIPLE_HYBRID then
    match ClassicalKEM.generate_keypair cfg.classical_alg cb rngC with
    | .error e => .error e
    | .ok km =>
        .ok (⟨some (mkShareEntry km isServer), pq1Entry cfg isServer ob useSim rngP1,
              pq2Entry cfg isServer ob useSim rngP2⟩,
             msgs ++ [⟨"KeyShare", if isServer then "Server" else "Client"⟩])
  else
    .ok (⟨none, pq1Entry cfg isServer ob useSim rngP1,
          pq2Entry cfg isServer ob useSim rngP2⟩,
         msgs ++ [⟨"KeyShare", if isServer then "Server" else "Client"⟩])

/-- The classical contribution of `compute_shared_secrets`: the whole `try`
body (private-key lookup plus `derive_shared_secret`) is wrapped by an
`except` handler that substitutes `secrets.token_bytes(32)`. `none` means the
branch did not run (a share was absent). -/
def classicalSecretOpt (cfg : HybridTLSHandshake) (cb : ClassicalBackend)
    (rng : Nat → Nat) (sS cS : KeyShares) : Option Bytes :=
  match sS.classical, cS.classical with
  | some se, some ce =>
      some (match se.private_key with
        | none => tokenBytes rng 0 32
        | some priv =>
            match ClassicalKEM.derive_shared_secret cfg.classical_alg cb rng priv ce.public_key with
            | .ok s => s
            | .error _ => tokenBytes rng 0 32)
  | _, _ => none

/-- The primary post-quantum contribution of `compute_shared_secrets`:
encapsulate against the server's public key; an exception is caught and
replaced by `secrets.token_bytes(32)`. -/
def pqPrimarySecretOpt (cfg : HybridTLSHandshake) (ob : OQSBackend)
    (useSim : CryptoAlgorithm → Bool) (rng : Nat → Nat) (sS cS : KeyShares) :
    Option Bytes :=
  match sS.pq_primary, cS.pq_primary with
  | some se, some _ =>
      some (match (QuantumSafeKEM.mk cfg.pq_alg1 (useSim cfg.pq_alg1)).encapsulate ob rng
          se.public_key with
        | .ok p => p.2
        | .error _ => tokenBytes rng 0 32)
  | _, _ => none

/-- The secondary post-quantum contribution of `compute_shared_secrets`
(triple hybrid only, requires `self.pq_kem2`). -/
def pqSecondarySecretOpt (cfg : HybridTLSHandshake) (ob : OQSBackend)
    (useSim : CryptoAlgorithm → Bool) (rng : Nat → Nat) (sS cS : KeyShares) :
    Option Bytes :=
  match pqKem2 cfg useSim with
  | none => none
  | some kem2 =>
      match sS.pq_secondary, cS.pq_secondary with
      | some se, some _ =>
          some (match kem2.encapsulate ob rng se.public_key with
            | .ok p => p.2
            | .error _ => tokenBytes rng 0 32)
      | _, _ => none

/-- The `shared_secrets` list of `compute_shared_secrets`, appended in the
fixed source order: classical, then primary PQ, then secondary PQ. -/
def sharedSecretList (cfg : HybridTLSHandshake) (cb : ClassicalBackend)
    (ob : OQSBackend) (useSim : CryptoAlgorithm → Bool) (rngC rngP1 rngP2 : Nat → Nat)
    (sS cS : KeyShares) : List Bytes :=
  (classicalSecretOpt cfg cb rngC sS cS).toList
    ++ (pqPrimarySecretOpt cfg ob useSim rngP1 sS cS).toList
    ++ (pqSecondarySecretOpt cfg ob useSim rngP2 sS cS).toList

/-- The fixed HKDF salt of the combiner. -/
def hybridSalt : Bytes := strBytes "TLS 1.3 Hybrid Key Schedule"

/-- `compute_shared_secrets`: join the collected secrets, derive 48 bytes via
HKDF-SHA384 with the protocol salt and a mode-identifying info string, log the
`SharedSecret` entry; raise `ValueError` when no secret was produced. -/
def compute_shared_secrets (cfg : HybridTLSHandshake) (cb : ClassicalBackend)
    (ob : OQSBackend) (useSim : CryptoAlgorithm → Bool) (rngC rngP1 rngP2 : Nat → Nat)
    (sS cS : KeyShares) (msgs : List HandshakeMessage) :
    Except String (Bytes × List HandshakeMessage) :=
  let secretsL := sharedSecretList cfg cb ob useSim rngC rngP1 rngP2 sS cS
  if secretsL = [] then .error "No shared secrets could be computed"
  else
    let combined := secretsL.flatten
    let finalSecret :=
      hkdf 48 hybridSalt (strBytes ("hybrid-" ++ cfg.exchange_type.value)) combined
    .ok (finalSecret, msgs ++ [⟨"SharedSecret", "Combined"⟩])

/-- The `SessionKeys` produced by `_derive_session_keys`. -/
structure SessionKeys where
  client_write_key : Bytes
  server_write_key : Bytes
  client_write_iv : Bytes
  server_write_iv : Bytes

/-- `_derive_session_keys`: one 32-byte HKDF output split into the two write
keys, while both write IVs are fresh `secrets.token_bytes(12)` draws. -/
def derive_session_keys (shared_secret : Bytes) (rng : Nat → Nat) : SessionKeys :=
  let key_material :=
    hkdf 32 (strBytes "TLS 1.3 session keys") (strBytes "client server keys") shared_secret
  ⟨key_material.take 16, (key_material.drop 16).take 16,
   tokenBytes rng 0 12, tokenBytes rng 12 12⟩

/-- The structured result dict of `perform_handshake` (the wall-clock
`handshake_duration` is omitted: it is an external clock reading). -/
structure HandshakeResult where
  success : Bool
  exchange_type : String
  algorithms : List String
  shared_secret_size : Nat
  session_keys : SessionKeys
  message_count : Nat
  key_size_classical : Nat
  key_size_pq_primary : Nat
  key_size_pq_secondary : Nat

/-- The `algorithms` list of the result dict: the configured classical and
primary PQ algorithm are always listed, and `pq_alg2` is appended whenever it
is set (`if self.pq_alg2:` after the dict is built). -/
def resultAlgorithms (cfg : HybridTLSHandshake) : List String :=
  [cfg.classical_alg.value, cfg.pq_alg1.value] ++
    (match cfg.pq_alg2 with | some a2 => [a2.value] | none => [])

/-- `perform_handshake` on a freshly constructed handshake (empty transcript):
ClientHello, ServerHello, both key-share generations, secret computation,
session-key derivation, then the result (built before the final
`HandshakeComplete` log entry). `ent` supplies one entropy stream per
randomness call site. -/
def perform_handshake (cfg : HybridTLSHandshake) (cb : ClassicalBackend)
    (ob : OQSBackend) (useSim : CryptoAlgorithm → Bool) (ent : Nat → Nat → Nat) :
    Except String (HandshakeResult × List HandshakeMessage) :=
  match server_hello cfg (client_hello cfg (ent 0) []).1 (ent 1)
      (client_hello cfg (ent 0) []).2 with
  | .error e => .error e
  | .ok shp =>
    match generate_key_shares cfg true cb ob useSim (ent 2) (ent 3) (ent 4) shp.2 with
    | .error e => .error e
    | .ok skp =>
      match generate_key_shares cfg false cb ob useSim (ent 5) (ent 6) (ent 7) skp.2 with
      | .error e => .error e
      | .ok ckp =>
        match compute_shared_secrets cfg cb ob useSim (ent 8) (ent 9) (ent 10)
            skp.1 ckp.1 ckp.2 with
        | .error e => .error e
        | .ok sp =>
          let keys := derive_session_keys sp.1 (ent 11)
          let result : HandshakeResult :=
            { success := true
              exchange_type := cfg.exchange_type.value
              algorithms := resultAlgorithms cfg
              shared_secret_size := sp.1.length
              session_keys := keys
              message_count := sp.2.length
              key_size_classical := ((skp.1.classical.map fun e => e.key_size).getD 0)
              key_size_pq_primary := ((skp.1.pq_primary.map fun e => e.key_size).getD 0)
              key_size_pq_secondary := ((skp.1.pq_secondary.map fun e => e.key_size).getD 0) }
          .ok (result, sp.2 ++ [⟨"HandshakeComplete", "System"⟩])

/-- Property of the value inside an `Except` when it is `ok`; `False` on
`error`. Used to state closed facts about computations that succeed. -/
def onOk {ε α : Type} (e : Except ε α) (P : α → Prop) : Prop :=
  match e with
  | .ok a => P a
  | .error _ => False

/-- A concrete stand-in for the classical curve library whose exchange
succeeds (any fixed function works: theorems quantify over backends). -/
def cbW : ClassicalBackend :=
  ⟨fun _ rng => (tokenBytes rng 0 32, tokenBytes rng 32 32),
   fun _ _ _ => .ok (List.replicate 32 9)⟩

/-- A classical backend whose exchange always raises, exercising the
`except` path of `compute_shared_secrets`. -/
def cbFail : ClassicalBackend :=
  ⟨fun _ rng => (tokenBytes rng 0 32, tokenBytes rng 32 32),
   fun _ _ _ => .error "bad public key bytes"⟩

/-- A concrete OQS stand-in (never consulted in simulation mode). -/
def obW : OQSBackend :=
  ⟨fun _ rng => (tokenBytes rng 0 16, tokenBytes rng 16 16),
   fun _ _ => .error "oqs library unavailable",
   fun _ _ => []⟩

/-- Simulation everywhere: the `OQS_AVAILABLE = False` environment. -/
def simW : CryptoAlgorithm → Bool := fun _ => true

/-- The classical-only demo configuration (Scenario A). -/
def cfgClassical : HybridTLSHandshake := ⟨.CLASSICAL, .X25519, .KYBER768, none⟩

/-- The dual-hybrid demo configuration. -/
def cfgDual : HybridTLSHandshake := ⟨.DUAL_HYBRID, .X25519, .KYBER768, none⟩

/-- A concrete server-side classical key-share dict (private key present). -/
def sharesServerX : KeyShares :=
  ⟨some ⟨"X25519", [1, 2], 32, some [3, 4]⟩, none, none⟩

/-- A concrete client-side classical key-share dict (public key only). -/
def sharesClientX : KeyShares :=
  ⟨some ⟨"X25519", [5, 6], 32, none⟩, none, none⟩

theorem client_hello_msgs (cfg : HybridTLSHandshake) (rng : Nat → Nat)
    (msgs : List HandshakeMessage) :
    (client_hello cfg rng msgs).2 = msgs ++ [⟨"ClientHello", "Client"⟩] := rfl

theorem server_hello_ok_msgs (cfg : HybridTLSHandshake) (ch : ClientHello)
    (rng : Nat → Nat) (msgs : List HandshakeMessage)
    (p : ServerHello × List HandshakeMessage)
    (h : server_hello cfg ch rng msgs = .ok p) :
    p.2 = msgs ++ [⟨"ServerHello", "Server"⟩] := by
  unfold server_hello at h
  split at h
  · exact Except.noConfusion h
  · simp only [Except.ok.injEq] at h
    rw [← h]

theorem generate_key_shares_ok_msgs (cfg : HybridTLSHandshake) (isServer : Bool)
    (cb : ClassicalBackend) (ob : OQSBackend) (useSim : CryptoAlgorithm → Bool)
    (rngC rngP1 rngP2 : Nat → Nat) (msgs : List HandshakeMessage)
    (p : KeyShares × List HandshakeMessage)
    (h : generate_key_shares cfg isServer cb ob useSim rngC rngP1 rngP2 msgs = .ok p) :
    p.2 = msgs ++ [⟨"KeyShare", if isServer then "Server" else "Client"⟩] := by
  unfold generate_key_shares at h
  split at h
  · split at h
    · exact Except.noConfusion h
    · simp only [Except.ok.injEq] at h
      rw [← h]
  · simp only [Except.ok.injEq] at h
    rw [← h]

theorem compute_shared_secrets_empty (cfg : HybridTLSHandshake) (cb : ClassicalBackend)
    (ob : OQSBackend) (useSim : CryptoAlgorithm → Bool) (r1 r2 r3 : Nat → Nat)
    (sS cS : KeyShares) (msgs : List HandshakeMessage)
    (h : sharedSecretList cfg cb ob useSim r1 r2 r3 sS cS = []) :
    compute_shared_secrets cfg cb ob useSim r1 r2 r3 sS cS msgs =
      .error "No shared secrets could be computed" := by
  unfold compute_shared_secrets
  simp [h]

theorem compute_shared_secrets_nonempty (cfg : HybridTLSHandshake) (cb : ClassicalBackend)
    (ob : OQSBackend) (useSim : CryptoAlgorithm → Bool) (r1 r2 r3 : Nat → Nat)
    (sS cS : KeyShares) (msgs : List HandshakeMessage)
    (h : sharedSecretList cfg cb ob useSim r1 r2 r3 sS cS ≠ []) :
    compute_shared_secrets cfg cb ob useSim r1 r2 r3 sS cS msgs =
      .ok (hkdf 48 hybridSalt (strBytes ("hybrid-" ++ cfg.exchange_type.value))
            (sharedSecretList cfg cb ob useSim r1 r2 r3 sS cS).flatten,
          msgs ++ [⟨"SharedSecret", "Combined"⟩]) := by
  unfold compute_shared_secrets
  simp [h]

theorem compute_shared_secrets_ok_parts (cfg : HybridTLSHandshake) (cb : ClassicalBackend)
    (ob : OQSBackend) (useSim : CryptoAlgorithm → Bool) (r1 r2 r3 : Nat → Nat)
    (sS cS : KeyShares) (msgs : List HandshakeMessage)
    (p : Bytes × List HandshakeMessage)
    (h : compute_shared_secrets cfg cb ob useSim r1 r2 r3 sS cS msgs = .ok p) :
    p.1.length = 48 ∧ p.2 = msgs ++ [⟨"SharedSecret", "Combined"⟩] := by
  by_cases hE : sharedSecretList cfg cb ob useSim r1 r2 r3 sS cS = []
  · rw [compute_shared_secrets_empty cfg cb ob useSim r1 r2 r3 sS cS msgs hE] at h
    exact Except.noConfusion h
  · rw [compute_shared_secrets_nonempty cfg cb ob useSim r1 r2 r3 sS cS msgs hE] at h
    simp only [Except.ok.injEq] at h
    rw [← h]
    exact ⟨hkdf_length 48 _ _ _, rfl⟩

theorem perform_handshake_ok_shape (cfg : HybridTLSHandshake) (cb : ClassicalBackend)
    (ob : OQSBackend) (useSim : CryptoAlgorithm → Bool) (ent : Nat → Nat → Nat)
    (r : HandshakeResult) (ms : List HandshakeMessage)
    (h : perform_handshake cfg cb ob useSim ent = .ok (r, ms)) :
    r.success = true ∧ r.algorithms = resultAlgorithms cfg ∧
      r.shared_secret_size = 48 ∧ r.message_count = 5 ∧
      ms.map (fun m => m.message_type) =
        ["ClientHello", "ServerHello", "KeyShare", "KeyShare", "SharedSecret",
         "HandshakeComplete"] := by
  unfold perform_handshake at h
  split at h
  · exact Except.noConfusion h
  · rename_i shp hsh
    split at h
    · exact Except.noConfusion h
    · rename_i skp hsk
      split at h
      · exact Except.noConfusion h
      · rename_i ckp hck
        split at h
        · exact Except.noConfusion h
        · rename_i sp hcs
          simp only [Except.ok.injEq, Prod.mk.injEq] at h
          obtain ⟨hr, hm⟩ := h
          have hsp := compute_shared_secrets_ok_parts cfg cb ob useSim (ent 8) (ent 9)
            (ent 10) skp.1 ckp.1 ckp.2 sp hcs
          have hc4 := generate_key_shares_ok_msgs cfg false cb ob useSim (ent 5) (ent 6)
            (ent 7) skp.2 ckp hck
          have hc3 := generate_key_shares_ok_msgs cfg true cb ob useSim (ent 2) (ent 3)
            (ent 4) shp.2 skp hsk
          have hc2 := server_hello_ok_msgs cfg (client_hello cfg (ent 0) []).1 (ent 1)
            (client_hello cfg (ent 0) []).2 shp hsh
          subst hr
          refine ⟨rfl, rfl, hsp.1, ?_, ?_⟩
          · show sp.2.length = 5
            rw [hsp.2, hc4, hc3, hc2, client_hello_msgs]
            simp
          · rw [← hm, hsp.2, hc4, hc3, hc2, client_hello_msgs]
            simp

/-- C1: the KEM round-trip property fails on the repository's own (simulation
mode) implementation: `decapsulate` ignores both the ciphertext and the
private key (returning 32 fresh random bytes, despite the source comment
promising a consistent shared secret), and on a concrete Kyber768 keypair and
encapsulation the decapsulated value differs from the encapsulated shared
secret. -/
theorem c1_kem_roundtrip_violation :
    (∀ (ct ct' priv priv' : Bytes) (rng : Nat → Nat) (ob : OQSBackend),
      (QuantumSafeKEM.mk .KYBER768 true).decapsulate ob rng ct priv =
        (QuantumSafeKEM.mk .KYBER768 true).decapsulate ob rng ct' priv')
    ∧ onOk ((QuantumSafeKEM.mk .KYBER768 true).encapsulate obW (fun _ => 0)
          ((QuantumSafeKEM.mk .KYBER768 true).generate_keypair obW (fun _ => 0)).public_key)
        (fun p =>
          (QuantumSafeKEM.mk .KYBER768 true).decapsulate obW (fun _ => 1) p.1
            ((QuantumSafeKEM.mk .KYBER768 true).generate_keypair obW
              (fun _ => 0)).private_key ≠ p.2) := by
  refine ⟨fun ct ct' priv priv' rng ob => rfl, ?_⟩
  exact (by decide : tokenBytes (fun _ => 1) 0 32 ≠
    tokenBytes (fun _ => 0)
      ((QuantumSafeKEM.mk .KYBER768 true).generate_keypair obW
        (fun _ => 0)).public_key.length 32)

/-- C2 counterexample: two runs of the session-key derivation on the same
shared secret are not byte-identical, because both write IVs are fresh
`secrets.token_bytes(12)` draws. -/
theorem c2_session_keys_not_deterministic :
    derive_session_keys [1, 2, 3] (fun _ => 0) ≠ derive_session_keys [1, 2, 3] (fun _ => 1) := by
  intro h
  have h2 : tokenBytes (fun _ => 0) 0 12 = tokenBytes (fun _ => 1) 0 12 :=
    congrArg SessionKeys.client_write_iv h
  exact absurd h2 (by decide)

/-- C2 (amended): for a fixed shared secret the derived `client_write_key` and
`server_write_key` are byte-identical across runs (they are a deterministic
HKDF image of the secret), while the two write IVs are fresh random draws per
invocation and so need not agree. -/
theorem c2_write_keys_deterministic (s : Bytes) (r1 r2 : Nat → Nat) :
    (derive_session_keys s r1).client_write_key =
      (derive_session_keys s r2).client_write_key ∧
    (derive_session_keys s r1).server_write_key =
      (derive_session_keys s r2).server_write_key :=
  ⟨rfl, rfl⟩

/-- C3: triple-hybrid negotiation is all-or-nothing: when the peer advertises
the classical and first post-quantum group but not the second, `server_hello`
raises `No compatible key exchange group found` (it never falls back to a
smaller hybrid, since the selection chain is keyed on the local exchange
type). -/
theorem c3_negotiation_all_or_nothing (c p1 a2 : CryptoAlgorithm)
    (groups : List String) (random : Bytes) (rng : Nat → Nat)
    (msgs : List HandshakeMessage)
    (h1 : c.value ∈ groups) (h2 : p1.value ∈ groups) (h3 : a2.value ∉ groups) :
    server_hello ⟨.TRIPLE_HYBRID, c, p1, some a2⟩ ⟨random, groups⟩ rng msgs =
      .error "No compatible key exchange group found" := by
  unfold server_hello selectGroup
  simp [h1, h2, h3]

/-- C3 witness: a concrete triple-hybrid configuration against a peer that
advertises only the classical and primary post-quantum groups. -/
theorem c3_witness :
    server_hello ⟨.TRIPLE_HYBRID, .X25519, .KYBER768, some .NTRU_HPS2048509⟩
        ⟨[], ["X25519", "Kyber768"]⟩ (fun _ => 0) [] =
      .error "No compatible key exchange group found" :=
  c3_negotiation_all_or_nothing .X25519 .KYBER768 .NTRU_HPS2048509
    ["X25519", "Kyber768"] [] (fun _ => 0) [] (by decide) (by decide) (by decide)

/-- C4: when the classical `derive_shared_secret` raises, the handshake is not
aborted: the handler substitutes 32 fabricated random bytes for the failed
primitive and `compute_shared_secrets` still returns a derived secret. -/
theorem c4_failed_exchange_not_aborted :
    sharedSecretList cfgClassical cbFail obW simW (fun n => n + 5) (fun _ => 0) (fun _ => 0)
        sharesServerX sharesClientX = [tokenBytes (fun n => n + 5) 0 32]
    ∧ compute_shared_secrets cfgClassical cbFail obW simW (fun n => n + 5) (fun _ => 0)
        (fun _ => 0) sharesServerX sharesClientX [] =
      .ok (hkdf 48 hybridSalt (strBytes "hybrid-classical")
            (List.flatten [tokenBytes (fun n => n + 5) 0 32]),
          [⟨"SharedSecret", "Combined"⟩]) :=
  ⟨rfl, rfl⟩

/-- C5: the combiner joins the collected per-primitive secrets in the fixed
classical/pq1/pq2 order, derives 48 bytes by HKDF with the protocol salt and a
mode-identifying info string (so a successful computation, and hence a
completed handshake, reports a 48-byte shared secret), and raises rather than
deriving from an empty secret list. -/
theorem c5_secret_combination :
    (∀ (cfg : HybridTLSHandshake) (cb : ClassicalBackend) (ob : OQSBackend)
      (useSim : CryptoAlgorithm → Bool) (r1 r2 r3 : Nat → Nat) (sS cS : KeyShares)
      (msgs : List HandshakeMessage),
      sharedSecretList cfg cb ob useSim r1 r2 r3 sS cS = [] →
        compute_shared_secrets cfg cb ob useSim r1 r2 r3 sS cS msgs =
          .error "No shared secrets could be computed")
    ∧ (∀ (cfg : HybridTLSHandshake) (cb : ClassicalBackend) (ob : OQSBackend)
      (useSim : CryptoAlgorithm → Bool) (r1 r2 r3 : Nat → Nat) (sS cS : KeyShares)
      (msgs : List HandshakeMessage),
      sharedSecretList cfg cb ob useSim r1 r2 r3 sS cS ≠ [] →
        compute_shared_secrets cfg cb ob useSim r1 r2 r3 sS cS msgs =
          .ok (hkdf 48 hybridSalt (strBytes ("hybrid-" ++ cfg.exchange_type.value))
                (sharedSecretList cfg cb ob useSim r1 r2 r3 sS cS).flatten,
              msgs ++ [⟨"SharedSecret", "Combined"⟩]))
    ∧ (∀ (cfg : HybridTLSHandshake) (cb : ClassicalBackend) (ob : OQSBackend)
      (useSim : CryptoAlgorithm → Bool) (r1 r2 r3 : Nat → Nat) (sS cS : KeyShares)
      (msgs : List HandshakeMessage) (p : Bytes × List HandshakeMessage),
      compute_shared_secrets cfg cb ob useSim r1 r2 r3 sS cS msgs = .ok p →
        p.1.length = 48)
    ∧ (∀ (cfg : HybridTLSHandshake) (cb : ClassicalBackend) (ob : OQSBackend)
      (useSim : CryptoAlgorithm → Bool) (ent : Nat → Nat → Nat) (r : HandshakeResult)
      (ms : List HandshakeMessage),
      perform_handshake cfg cb ob useSim ent = .ok (r, ms) → r.shared_secret_size = 48) :=
  ⟨compute_shared_secrets_empty,
   compute_shared_secrets_nonempty,
   fun cfg cb ob useSim r1 r2 r3 sS cS msgs p h =>
     (compute_shared_secrets_ok_parts cfg cb ob useSim r1 r2 r3 sS cS msgs p h).1,
   fun cfg cb ob useSim ent r ms h =>
     (perform_handshake_ok_shape cfg cb ob useSim ent r ms h).2.2.1⟩

/-- C5 witness: the combiner applied to a concrete classical-only share pair
produces exactly the HKDF image of the joined secret list. -/
theorem c5_witness :
    compute_shared_secrets cfgClassical cbW obW simW (fun _ => 0) (fun _ => 0) (fun _ => 0)
        sharesServerX sharesClientX [] =
      .ok (hkdf 48 hybridSalt (strBytes ("hybrid-" ++ cfgClassical.exchange_type.value))
            (sharedSecretList cfgClassical cbW obW simW (fun _ => 0) (fun _ => 0)
              (fun _ => 0) sharesServerX sharesClientX).flatten,
          [⟨"SharedSecret", "Combined"⟩]) :=
  c5_secret_combination.2.1 cfgClassical cbW obW simW (fun _ => 0) (fun _ => 0)
    (fun _ => 0) sharesServerX sharesClientX [] (by decide)

/-- C6 counterexample: the server-side key-share structure does contain a
private key (the source stores `private_key` in the share dict when
`is_server` is true). -/
theorem c6_server_share_contains_private_key :
    onOk (generate_key_shares cfgDual true cbW obW simW (fun _ => 0) (fun _ => 0)
        (fun _ => 0) [])
      (fun p => ((p.1.classical.bind fun e => e.private_key)).isSome = true) := rfl

/-- C6 (amended): key-share structures generated for the client
(`is_server = False`) carry only public keys (every `private_key` field is
absent), while the server's own share structures additionally hold the
generated private keys for local secret computation. -/
theorem c6_client_key_shares_public_only (cfg : HybridTLSHandshake)
    (cb : ClassicalBackend) (ob : OQSBackend) (useSim : CryptoAlgorithm → Bool)
    (rngC rngP1 rngP2 : Nat → Nat) (msgs : List HandshakeMessage)
    (p : KeyShares × List HandshakeMessage)
    (h : generate_key_shares cfg false cb ob useSim rngC rngP1 rngP2 msgs = .ok p) :
    (p.1.classical.bind fun e => e.private_key) = none ∧
    (p.1.pq_primary.bind fun e => e.private_key) = none ∧
    (p.1.pq_secondary.bind fun e => e.private_key) = none := by
  have hp1 : ∀ rng, ((pq1Entry cfg false ob useSim rng).bind fun e => e.private_key) = none := by
    intro rng
    unfold pq1Entry
    split <;> simp [mkShareEntry]
  have hp2 : ∀ rng, ((pq2Entry cfg false ob useSim rng).bind fun e => e.private_key) = none := by
    intro rng
    unfold pq2Entry
    split
    · split <;> simp [mkShareEntry]
    · rfl
  unfold generate_key_shares at h
  split at h
  · split at h
    · exact Except.noConfusion h
    · simp only [Except.ok.injEq] at h
      rw [← h]
      exact ⟨by simp [mkShareEntry], hp1 _, hp2 _⟩
  · simp only [Except.ok.injEq] at h
    rw [← h]
    exact ⟨rfl, hp1 _, hp2 _⟩

/-- C6 witness: a concrete client-side share generation whose classical entry
has no private key. -/
theorem c6_witness :
    onOk (generate_key_shares cfgDual false cbW obW simW (fun _ => 0) (fun _ => 0)
        (fun _ => 0) [])
      (fun p => (p.1.classical.bind fun e => e.private_key) = none) := by
  obtain ⟨p, h⟩ : ∃ p, generate_key_shares cfgDual false cbW obW simW (fun _ => 0)
      (fun _ => 0) (fun _ => 0) [] = .ok p := ⟨_, rfl⟩
  unfold onOk
  rw [h]
  exact (c6_client_key_shares_public_only cfgDual cbW obW simW (fun _ => 0) (fun _ => 0)
    (fun _ => 0) [] p h).1

/-- C7: with OQS unavailable every `QuantumSafeKEM` enters simulation mode,
and `generate_keypair` then silently returns fabricated random key material of
the algorithm-specific sizes (1184/2400 bytes for Kyber768) instead of raising
an unsupported-algorithm error. -/
theorem c7_unavailable_backend_silently_simulated :
    (∀ (instantiationOk : Bool) (a : CryptoAlgorithm),
      useSimulationFlag false instantiationOk a = true)
    ∧ (∀ (ob : OQSBackend) (rng : Nat → Nat),
      (QuantumSafeKEM.mk .KYBER768 true).generate_keypair ob rng =
        ⟨tokenBytes rng 0 1184, tokenBytes rng 1184 2400, .KYBER768, 1184⟩) :=
  ⟨fun _ _ => rfl, fun _ _ => rfl⟩

/-- C8 counterexample: Scenario A's negotiation does select `X25519`, and the
handshake completes, but the returned `algorithms` list is not `["X25519"]`. -/
theorem c8_algorithms_list_not_selection :
    selectGroup cfgClassical ["X25519", "Kyber768"] = some "X25519"
    ∧ onOk (perform_handshake cfgClassical cbW obW simW (fun _ _ => 0))
        (fun p => p.1.algorithms ≠ ["X25519"]) := by
  refine ⟨rfl, ?_⟩
  exact (by decide : (["X25519", "Kyber768"] : List String) ≠ ["X25519"])

/-- C8 (amended): for the ClassicalOnly/X25519 configuration, negotiation
against a peer advertising both X25519 and Kyber768 selects `X25519` and the
handshake completes with a 48-byte shared secret, but the result's
`algorithms` list is `["X25519", "Kyber768"]`: the constructor-configured
classical and primary post-quantum algorithms are always reported, whether or
not the post-quantum one was used. -/
theorem c8_classical_only_scenario (cb : ClassicalBackend) (ob : OQSBackend)
    (useSim : CryptoAlgorithm → Bool) (ent : Nat → Nat → Nat) :
    selectGroup cfgClassical ["X25519", "Kyber768"] = some "X25519"
    ∧ ∃ (r : HandshakeResult) (ms : List HandshakeMessage),
        perform_handshake cfgClassical cb ob useSim ent = .ok (r, ms)
        ∧ r.success = true ∧ r.algorithms = ["X25519", "Kyber768"]
        ∧ r.shared_secret_size = 48 := by
  obtain ⟨r, ms, h⟩ : ∃ r ms, perform_handshake cfgClassical cb ob useSim ent =
      .ok (r, ms) := ⟨_, _, rfl⟩
  have hs := perform_handshake_ok_shape cfgClassical cb ob useSim ent r ms h
  exact ⟨rfl, r, ms, h, hs.1, hs.2.1.trans (by decide), hs.2.2.1⟩

/-- C9: whenever `perform_handshake` succeeds, the transcript received exactly
one entry per step before the result was built, so `message_count = 5` and
the full transcript reads ClientHello, ServerHello, two KeyShares, a
SharedSecret and the final HandshakeComplete entry. -/
theorem c9_transcript_five_messages (cfg : HybridTLSHandshake) (cb : ClassicalBackend)
    (ob : OQSBackend) (useSim : CryptoAlgorithm → Bool) (ent : Nat → Nat → Nat)
    (r : HandshakeResult) (ms : List HandshakeMessage)
    (h : perform_handshake cfg cb ob useSim ent = .ok (r, ms)) :
    r.message_count = 5 ∧
      ms.map (fun m => m.message_type) =
        ["ClientHello", "ServerHello", "KeyShare", "KeyShare", "SharedSecret",
         "HandshakeComplete"] :=
  ⟨(perform_handshake_ok_shape cfg cb ob useSim ent r ms h).2.2.2.1,
   (perform_handshake_ok_shape cfg cb ob useSim ent r ms h).2.2.2.2⟩

/-- C9 witness: a concrete dual-hybrid handshake that completes with exactly
five transcript entries counted in the result. -/
theorem c9_witness :
    onOk (perform_handshake cfgDual cbW obW simW (fun _ _ => 0))
      (fun p => p.1.message_count = 5) := by
  obtain ⟨r, ms, h⟩ : ∃ r ms, perform_handshake cfgDual cbW obW simW (fun _ _ => 0) =
      .ok (r, ms) := ⟨_, _, rfl⟩
  unfold onOk
  rw [h]
  exact (c9_transcript_five_messages cfgDual cbW obW simW (fun _ _ => 0) r ms h).1

/-- C10: a triple-hybrid handshake constructed without a second post-quantum
algorithm can never complete: its second KEM is never instantiated, group
selection returns nothing for every advertised list, `server_hello` always
raises, and `perform_handshake` always fails with that error. -/
theorem c10_triple_without_pq2_always_fails :
    (∀ (c p1 : CryptoAlgorithm) (useSim : CryptoAlgorithm → Bool),
      pqKem2 ⟨.TRIPLE_HYBRID, c, p1, none⟩ useSim = none)
    ∧ (∀ (c p1 : CryptoAlgorithm) (groups : List String),
      selectGroup ⟨.TRIPLE_HYBRID, c, p1, none⟩ groups = none)
    ∧ (∀ (c p1 : CryptoAlgorithm) (ch : ClientHello) (rng : Nat → Nat)
      (msgs : List HandshakeMessage),
      server_hello ⟨.TRIPLE_HYBRID, c, p1, none⟩ ch rng msgs =
        .error "No compatible key exchange group found")
    ∧ (∀ (c p1 : CryptoAlgorithm) (cb : ClassicalBackend) (ob : OQSBackend)
      (useSim : CryptoAlgorithm → Bool) (ent : Nat → Nat → Nat),
      perform_handshake ⟨.TRIPLE_HYBRID, c, p1, none⟩ cb ob useSim ent =
        .error "No compatible key exchange group found") :=
  ⟨fun _ _ _ => rfl, fun _ _ _ => rfl, fun _ _ _ _ _ => rfl, fun _ _ _ _ _ _ => rfl⟩

